import Mathlib

/-!
Shallow embedding of `src/src-tauri/src/lib.rs` (compress-io).

The Rust code drives an external `ffmpeg` sidecar binary.  Everything the
environment decides — whether the input path exists, the outcome of each
encoder probe subprocess, whether the main spawn succeeds, and the event
stream produced by the spawned child — is passed in explicitly through an
environment record, and the Tauri commands `compress_video` and
`compress_image` become pure functions of that environment.  Outcomes are
instrumented with the list of encoders that were actually probed, whether a
main child process was spawned, and the assembled argument list, so that the
theorems can speak about spawning behaviour and about the argument builder.
-/

set_option autoImplicit false

namespace CompressIO

/-- Events delivered by the spawned child process channel, mirroring
`tauri_plugin_shell::process::CommandEvent`: a stderr line, a termination
event carrying an optional exit code (`None` when killed by a signal), or
any other event (stdout, error), which both Rust loops ignore. -/
inductive CommandEvent where
  | stderr (line : String)
  | terminated (code : Option Int)
  | other
deriving DecidableEq, Repr

/-- Outcome of one encoder-probe subprocess (`.output().await` in
`is_encoder_supported`): either the process ran to completion with an exit
code, or spawning/running it failed with an OS error. -/
inductive ProbeOutcome where
  | finished (code : Int)
  | failed
deriving DecidableEq, Repr

/-- Argument list of the probe command in `is_encoder_supported`
(lib.rs lines 9-13): a tiny synthetic lavfi encode to the null muxer. -/
def probeArgs (encoder : String) : List String :=
  ["-f", "lavfi", "-i", "color=s=64x64:d=0.1", "-c:v", encoder, "-f", "null", "-"]

/-- `is_encoder_supported` (lib.rs lines 8-25): `Ok(o) => o.status.success()`
(exit code zero), `Err(_) => false`.  Every probe failure collapses to the
boolean `false`. -/
def is_encoder_supported (outcome : ProbeOutcome) : Bool :=
  match outcome with
  | .finished code => code == 0
  | .failed => false

/-- Splits a character list at its last `'.'`: `some (before, after)` when a
dot exists, `none` otherwise.  Models the split Rust's
`Path::extension` performs on the file name. -/
def splitAtLastDot : List Char → Option (List Char × List Char)
  | [] => none
  | c :: rest =>
    match splitAtLastDot rest with
    | some (b, a) => some (c :: b, a)
    | none => if c = '.' then some ([], rest) else none

/-- Splits a character list into path components at `'/'`. -/
def splitSlash : List Char → List (List Char)
  | [] => [[]]
  | c :: rest =>
    let r := splitSlash rest
    if c = '/' then [] :: r
    else
      match r with
      | [] => [[c]]
      | h :: t => (c :: h) :: t

/-- Models Rust `Path::file_name` for forward-slash paths: the last path
component, skipping trailing empty and `"."` components, and `none` when
that component is `".."` or the path is empty. -/
def pathFileName (p : String) : Option (List Char) :=
  match ((splitSlash p.toList).reverse.dropWhile
      (fun c => c == ([] : List Char) || c == ['.'])) with
  | [] => none
  | c :: _ => if c == ['.', '.'] then none else some c

/-- Models lib.rs lines 65-69: `Path::new(&output).extension()
.and_then(|e| e.to_str()).unwrap_or("").to_lowercase()`.  The extension is
the part of the file name after its last dot, empty when there is no dot or
when the only dot is the leading one (hidden files), ASCII-lowercased. -/
def videoExt (output : String) : String :=
  match pathFileName output with
  | none => ""
  | some name =>
    match splitAtLastDot name with
    | none => ""
    | some (before, after) =>
      if before == ([] : List Char) then ""
      else String.mk (after.map Char.toLower)

/-- The extension group of lib.rs line 82:
`"mp4" | "mkv" | "mov" | "avi" | "flv" | "ts" | "m4v" | "wmv"`. -/
def groupA : List String :=
  ["mp4", "mkv", "mov", "avi", "flv", "ts", "m4v", "wmv"]

/-- The four hardware-encoder candidates probed in order
(lib.rs lines 85, 94, 103, 112). -/
def gpuCandidates : List String :=
  ["h264_nvenc", "h264_videotoolbox", "h264_amf", "h264_qsv"]

/-- The mutable selection state of `compress_video`
(lib.rs lines 71-77): encoder, audio codec, preset, extra output args, and
the hardware-acceleration args placed before `-i`. -/
structure Selection where
  encoder : String
  audio : String
  preset : String
  extra : List String
  preInput : List String
deriving DecidableEq, Repr

/-- The initial values of lib.rs lines 71-77. -/
def softwareSel : Selection :=
  ⟨"libx264", "aac", "medium", [], []⟩

/-- Result of the routing `match` (lib.rs lines 80-163): either the gif arm,
which runs its own pipeline and returns early, or the selection state left
behind for the normal pipeline. -/
inductive Route where
  | gif
  | normal (sel : Selection)
deriving DecidableEq, Repr

/-- The routing `match` of lib.rs lines 80-163, with `supported e` standing
for `is_encoder_supported(&app, e).await`.  The group A arm runs the
sequential first-match if/else chain over the four hardware candidates only
when `auto_gpu` holds; webm, ogv/ogg and gif have fixed arms; any other
extension falls through `_ => {}` leaving the defaults. -/
def route (ext : String) (autoGpu : Bool) (supported : String → Bool) : Route :=
  if groupA.contains ext then
    if autoGpu then
      if supported "h264_nvenc" then
        .normal ⟨"h264_nvenc", "aac", "p4", [], ["-hwaccel", "cuda"]⟩
      else if supported "h264_videotoolbox" then
        .normal ⟨"h264_videotoolbox", "aac", "medium", ["-q:v", "55"],
          ["-hwaccel", "videotoolbox"]⟩
      else if supported "h264_amf" then
        .normal ⟨"h264_amf", "aac", "medium", ["-usage", "transcoding"],
          ["-hwaccel", "auto"]⟩
      else if supported "h264_qsv" then
        .normal ⟨"h264_qsv", "aac", "medium", ["-global_quality", "25"],
          ["-hwaccel", "auto"]⟩
      else .normal softwareSel
    else .normal softwareSel
  else if ext = "webm" then
    .normal ⟨"libvpx-vp9", "libopus", "medium", ["-b:v", "0", "-crf", "30"], []⟩
  else if ext = "ogv" ∨ ext = "ogg" then
    .normal ⟨"libtheora", "libvorbis", "medium", ["-q:v", "6"], []⟩
  else if ext = "gif" then
    .gif
  else .normal softwareSel

/-- The encoder probes actually executed by the if/else chain of
lib.rs lines 85-112: in group A with `auto_gpu`, candidates are probed in
the fixed order and probing stops at the first success (short-circuit
evaluation of the chain); otherwise no probe runs. -/
def probesRun (ext : String) (autoGpu : Bool) (supported : String → Bool) :
    List String :=
  if groupA.contains ext then
    if autoGpu then
      if supported "h264_nvenc" then ["h264_nvenc"]
      else if supported "h264_videotoolbox" then
        ["h264_nvenc", "h264_videotoolbox"]
      else if supported "h264_amf" then
        ["h264_nvenc", "h264_videotoolbox", "h264_amf"]
      else
        ["h264_nvenc", "h264_videotoolbox", "h264_amf", "h264_qsv"]
    else []
  else []

/-- The argument assembly of lib.rs lines 167-183: hardware-acceleration
args first, then `-i input -c:v encoder`, a `-preset` pair unless the
encoder is libvpx-vp9, libtheora or h264_videotoolbox, then the extra args,
`-c:a audio`, `-y`, and the output path. -/
def buildArgs (input output : String) (sel : Selection) : List String :=
  sel.preInput ++ ["-i", input, "-c:v", sel.encoder] ++
  (if sel.encoder ≠ "libvpx-vp9" ∧ sel.encoder ≠ "libtheora" ∧
      sel.encoder ≠ "h264_videotoolbox"
    then ["-preset", sel.preset] else []) ++
  sel.extra ++ ["-c:a", sel.audio, "-y", output]

/-- The fixed argument list of the gif arm (lib.rs lines 145-149). -/
def gifArgs (input output : String) : List String :=
  ["-i", input, "-vf", "fps=15,scale=480:-1:flags=lanczos", "-y", output]

/-- The gif-arm event loop (lib.rs lines 153-159): only `Terminated` events
with a nonzero code produce an error; the loop otherwise drains the channel
and the arm returns `Ok(())`. -/
def gifLoop : List CommandEvent → Except String Unit
  | [] => .ok ()
  | .terminated (some code) :: rest =>
    if code ≠ 0 then
      .error ("GIF conversion failed with exit code: " ++ toString code)
    else gifLoop rest
  | .terminated none :: rest => gifLoop rest
  | .stderr _ :: rest => gifLoop rest
  | .other :: rest => gifLoop rest

/-- The main event loop of `compress_video` (lib.rs lines 194-213): each
stderr line replaces `last_log_error`; a `Terminated` event with a nonzero
code returns the error built from the code and the last stderr line; a zero
or absent code is ignored; the loop returns `Ok(())` once the channel
closes. -/
def videoLoop : List CommandEvent → String → Except String Unit
  | [], _ => .ok ()
  | .stderr line :: rest, _ => videoLoop rest line
  | .terminated (some code) :: rest, lastLogError =>
    if code ≠ 0 then
      .error ("FFmpeg Stopped/Crashed (Code " ++ toString code ++ "): " ++
        lastLogError)
    else videoLoop rest lastLogError
  | .terminated none :: rest, lastLogError => videoLoop rest lastLogError
  | .other :: rest, lastLogError => videoLoop rest lastLogError

/-- The event loop of `compress_image` (lib.rs lines 250-255): stderr lines
are forwarded as progress events and every other event — including
`Terminated`, whatever its exit code — is ignored.  The returned list is
the sequence of forwarded progress lines. -/
def imageLoop : List CommandEvent → List String
  | [] => []
  | .stderr line :: rest => line :: imageLoop rest
  | .terminated _ :: rest => imageLoop rest
  | .other :: rest => imageLoop rest

/-- Environment of one `compress_video` call: whether the input path
exists, the outcome of the probe subprocess for each encoder name, the
result of creating and spawning the main (or gif) child — `Except.error`
carries the stringified sidecar/spawn error — and the events its channel
delivers. -/
structure VideoEnv where
  inputExists : Bool
  probe : String → ProbeOutcome
  spawn : Except String Unit
  events : List CommandEvent

/-- Instrumented outcome of `compress_video`: the returned
`Result<(), String>`, the encoder probes that ran (each one spawns a
child), whether the main/gif child was spawned, and the argument list
assembled for it (empty when the call failed before building it). -/
structure VideoOutcome where
  result : Except String Unit
  probed : List String
  spawned : Bool
  args : List String
deriving Repr

/-- `compress_video` (lib.rs lines 55-216) as a function of the
environment: fail fast when the input does not exist, compute the output
extension, run the routing match (probing through
`is_encoder_supported`), then either the gif pipeline or the normal
pipeline, spawning the child and draining its events. -/
def compress_video (env : VideoEnv) (input output : String) (autoGpu : Bool) :
    VideoOutcome :=
  if env.inputExists = false then
    ⟨.error "Input file not found", [], false, []⟩
  else
    let ext := videoExt output
    let supported := fun c => is_encoder_supported (env.probe c)
    match route ext autoGpu supported with
    | .gif =>
      match env.spawn with
      | .error e =>
        ⟨.error e, probesRun ext autoGpu supported, false, gifArgs input output⟩
      | .ok _ =>
        ⟨gifLoop env.events, probesRun ext autoGpu supported, true,
          gifArgs input output⟩
    | .normal sel =>
      match env.spawn with
      | .error e =>
        ⟨.error e, probesRun ext autoGpu supported, false,
          buildArgs input output sel⟩
      | .ok _ =>
        ⟨videoLoop env.events "Unknown FFmpeg Error",
          probesRun ext autoGpu supported, true, buildArgs input output sel⟩

/-- The argument assembly of `compress_image` (lib.rs lines 228-240):
`-i input`, then a `-vf scale=width:h` pair only when the width is neither
`"0"` nor empty, with `h` becoming `-1` when the height is empty or `"0"`,
then `-y output`. -/
def imageArgs (input output width height : String) : List String :=
  ["-i", input] ++
  (if width ≠ "0" ∧ width ≠ "" then
    ["-vf", "scale=" ++ width ++ ":" ++
      (if height = "" ∨ height = "0" then "-1" else height)]
  else []) ++
  ["-y", output]

/-- Environment of one `compress_image` call (no probes run here). -/
structure ImageEnv where
  inputExists : Bool
  spawn : Except String Unit
  events : List CommandEvent

/-- Instrumented outcome of `compress_image`: the returned result, whether
the child was spawned, the assembled argument list, and the progress lines
forwarded from stderr. -/
structure ImageOutcome where
  result : Except String Unit
  spawned : Bool
  args : List String
  progress : List String
deriving Repr

/-- `compress_image` (lib.rs lines 221-258): fail fast when the input does
not exist, assemble the arguments, spawn, forward stderr lines, and return
`Ok(())` unconditionally once the channel closes — the loop never inspects
the exit code. -/
def compress_image (env : ImageEnv) (input output width height : String) :
    ImageOutcome :=
  if env.inputExists = false then
    ⟨.error "Input file not found", false, [], []⟩
  else
    let args := imageArgs input output width height
    match env.spawn with
    | .error e => ⟨.error e, false, args, []⟩
    | .ok _ => ⟨.ok (), true, args, imageLoop env.events⟩

/-- An event is fatal for the video/gif loops exactly when it is a
termination event with a nonzero exit code. -/
def fatal : CommandEvent → Bool
  | .terminated (some code) => code != 0
  | _ => false

/-- The value `last_log_error` holds after processing a list of events,
starting from `acc` ("Unknown FFmpeg Error" initially): the last stderr
line seen, or `acc` when there is none. -/
def lastStderr : List CommandEvent → String → String
  | [], acc => acc
  | .stderr line :: rest, _ => lastStderr rest line
  | .terminated _ :: rest, acc => lastStderr rest acc
  | .other :: rest, acc => lastStderr rest acc

/-! ## Helper lemmas -/

theorem gifLoop_ok (es : List CommandEvent)
    (h : ∀ e ∈ es, fatal e = false) : gifLoop es = .ok () := by
  induction es with
  | nil => rfl
  | cons e rest ih =>
    have hrest : ∀ x ∈ rest, fatal x = false :=
      fun x hx => h x (List.mem_cons_of_mem _ hx)
    cases e with
    | stderr line => simpa [gifLoop] using ih hrest
    | other => simpa [gifLoop] using ih hrest
    | terminated code =>
      cases code with
      | none => simpa [gifLoop] using ih hrest
      | some c =>
        have hc : (c != 0) = false := h _ (List.mem_cons_self _ _)
        have hc0 : c = 0 := by simpa using hc
        subst hc0
        simpa [gifLoop] using ih hrest

theorem videoLoop_ok (es : List CommandEvent) (acc : String)
    (h : ∀ e ∈ es, fatal e = false) : videoLoop es acc = .ok () := by
  induction es generalizing acc with
  | nil => rfl
  | cons e rest ih =>
    have hrest : ∀ x ∈ rest, fatal x = false :=
      fun x hx => h x (List.mem_cons_of_mem _ hx)
    cases e with
    | stderr line => simpa [videoLoop] using ih line hrest
    | other => simpa [videoLoop] using ih acc hrest
    | terminated code =>
      cases code with
      | none => simpa [videoLoop] using ih acc hrest
      | some c =>
        have hc : (c != 0) = false := h _ (List.mem_cons_self _ _)
        have hc0 : c = 0 := by simpa using hc
        subst hc0
        simpa [videoLoop] using ih acc hrest

theorem videoLoop_err (es₁ es₂ : List CommandEvent) (c : Int) (acc : String)
    (hc : c ≠ 0) (h : ∀ e ∈ es₁, fatal e = false) :
    videoLoop (es₁ ++ CommandEvent.terminated (some c) :: es₂) acc =
      .error ("FFmpeg Stopped/Crashed (Code " ++ toString c ++ "): " ++
        lastStderr es₁ acc) := by
  induction es₁ generalizing acc with
  | nil => simp [videoLoop, lastStderr, hc]
  | cons e rest ih =>
    have hrest : ∀ x ∈ rest, fatal x = false :=
      fun x hx => h x (List.mem_cons_of_mem _ hx)
    cases e with
    | stderr line => simpa [videoLoop, lastStderr] using ih line hrest
    | other => simpa [videoLoop, lastStderr] using ih acc hrest
    | terminated code =>
      cases code with
      | none => simpa [videoLoop, lastStderr] using ih acc hrest
      | some c₀ =>
        have hc0 : c₀ = 0 := by
          simpa [fatal] using h _ (List.mem_cons_self _ _)
        subst hc0
        simpa [videoLoop, lastStderr] using ih acc hrest

theorem gifLoop_err (es₁ es₂ : List CommandEvent) (c : Int)
    (hc : c ≠ 0) (h : ∀ e ∈ es₁, fatal e = false) :
    gifLoop (es₁ ++ CommandEvent.terminated (some c) :: es₂) =
      .error ("GIF conversion failed with exit code: " ++ toString c) := by
  induction es₁ with
  | nil => simp [gifLoop, hc]
  | cons e rest ih =>
    have hrest : ∀ x ∈ rest, fatal x = false :=
      fun x hx => h x (List.mem_cons_of_mem _ hx)
    cases e with
    | stderr line => simpa [gifLoop] using ih hrest
    | other => simpa [gifLoop] using ih hrest
    | terminated code =>
      cases code with
      | none => simpa [gifLoop] using ih hrest
      | some c₀ =>
        have hc0 : c₀ = 0 := by
          simpa [fatal] using h _ (List.mem_cons_self _ _)
        subst hc0
        simpa [gifLoop] using ih hrest

theorem route_normal_of_ne_gif (ext : String) (autoGpu : Bool)
    (supported : String → Bool) (h : ext ≠ "gif") :
    ∃ sel, route ext autoGpu supported = Route.normal sel := by
  unfold route
  split_ifs <;> exact ⟨_, rfl⟩

theorem route_of_gif (autoGpu : Bool) (supported : String → Bool) :
    route "gif" autoGpu supported = Route.gif := by
  simp [route, groupA]

theorem compress_video_args_of_route (env : VideoEnv) (input output : String)
    (autoGpu : Bool) (sel : Selection)
    (hin : env.inputExists = true)
    (hroute : route (videoExt output) autoGpu
        (fun c => is_encoder_supported (env.probe c)) = Route.normal sel) :
    (compress_video env input output autoGpu).args =
      buildArgs input output sel := by
  cases hsp : env.spawn <;> simp [compress_video, hin, hroute, hsp]

theorem compress_video_probed_eq (env : VideoEnv) (input output : String)
    (autoGpu : Bool) (hin : env.inputExists = true) :
    (compress_video env input output autoGpu).probed =
      probesRun (videoExt output) autoGpu
        (fun c => is_encoder_supported (env.probe c)) := by
  rcases hr : route (videoExt output) autoGpu
      (fun c => is_encoder_supported (env.probe c)) with _ | sel <;>
    cases hsp : env.spawn <;> simp [compress_video, hin, hr, hsp]

theorem compress_video_result_normal (env : VideoEnv) (input output : String)
    (autoGpu : Bool) (sel : Selection)
    (hin : env.inputExists = true)
    (hroute : route (videoExt output) autoGpu
        (fun c => is_encoder_supported (env.probe c)) = Route.normal sel)
    (hspawn : env.spawn = Except.ok ()) :
    (compress_video env input output autoGpu).result =
      videoLoop env.events "Unknown FFmpeg Error" := by
  simp [compress_video, hin, hroute, hspawn]

theorem compress_video_result_gif (env : VideoEnv) (input output : String)
    (autoGpu : Bool)
    (hin : env.inputExists = true)
    (hroute : route (videoExt output) autoGpu
        (fun c => is_encoder_supported (env.probe c)) = Route.gif)
    (hspawn : env.spawn = Except.ok ()) :
    (compress_video env input output autoGpu).result = gifLoop env.events := by
  simp [compress_video, hin, hroute, hspawn]

theorem compress_video_result_ok (env : VideoEnv) (input output : String)
    (autoGpu : Bool)
    (hin : env.inputExists = true) (hspawn : env.spawn = Except.ok ())
    (hev : ∀ e ∈ env.events, fatal e = false) :
    (compress_video env input output autoGpu).result = Except.ok () := by
  rcases hr : route (videoExt output) autoGpu
      (fun c => is_encoder_supported (env.probe c)) with _ | sel
  · rw [compress_video_result_gif env input output autoGpu hin hr hspawn]
    exact gifLoop_ok _ hev
  · rw [compress_video_result_normal env input output autoGpu sel hin hr hspawn]
    exact videoLoop_ok _ _ hev

/-! ## Claim theorems -/

/-- C4: for every `compress_video` and `compress_image` call whose input
path does not exist, the call returns the failure "Input file not found"
before spawning any child process: no encoder probe ran, no main child was
spawned, and no argument list was even assembled. -/
theorem C4_missing_input_fails_fast :
    (∀ (env : VideoEnv) (input output : String) (autoGpu : Bool),
      env.inputExists = false →
      compress_video env input output autoGpu =
        ⟨.error "Input file not found", [], false, []⟩) ∧
    (∀ (env : ImageEnv) (input output width height : String),
      env.inputExists = false →
      compress_image env input output width height =
        ⟨.error "Input file not found", false, [], []⟩) := by
  constructor
  · intro env input output autoGpu h
    simp [compress_video, h]
  · intro env input output width height h
    simp [compress_image, h]

/-- Witness for C4 at a concrete environment whose input path is absent. -/
theorem C4_missing_input_witness :
    compress_video
        ⟨false, fun _ => ProbeOutcome.failed, Except.ok (), []⟩
        "in.mp4" "out.mp4" true =
      ⟨.error "Input file not found", [], false, []⟩ ∧
    compress_image ⟨false, Except.ok (), []⟩ "in.png" "out.png" "100" "100" =
      ⟨.error "Input file not found", false, [], []⟩ :=
  ⟨C4_missing_input_fails_fast.1 _ "in.mp4" "out.mp4" true rfl,
   C4_missing_input_fails_fast.2 _ "in.png" "out.png" "100" "100" rfl⟩

/-- C7: for every `compress_image` call with width `"0"` or empty, the
assembled ffmpeg argument list contains no `-vf`/scale filter — it is
exactly `["-i", input, "-y", output]` — regardless of the height
argument. -/
theorem C7_zero_width_no_scale (env : ImageEnv)
    (input output width height : String)
    (hw : width = "0" ∨ width = "") :
    imageArgs input output width height = ["-i", input, "-y", output] ∧
    (env.inputExists = true →
      (compress_image env input output width height).args =
        ["-i", input, "-y", output]) := by
  have h : ¬(width ≠ "0" ∧ width ≠ "") := by
    rcases hw with h | h <;> simp [h]
  refine ⟨by simp [imageArgs, h], fun hin => ?_⟩
  cases hsp : env.spawn <;> simp [compress_image, hin, hsp, imageArgs, h]

/-- Witness for C7: width `"0"` with a nonzero height still yields no
scale filter. -/
theorem C7_zero_width_witness :
    imageArgs "in.png" "out.png" "0" "300" =
      ["-i", "in.png", "-y", "out.png"] ∧
    (compress_image ⟨true, Except.ok (), []⟩
        "in.png" "out.png" "0" "300").args =
      ["-i", "in.png", "-y", "out.png"] := by
  have h := C7_zero_width_no_scale ⟨true, Except.ok (), []⟩
    "in.png" "out.png" "0" "300" (Or.inl rfl)
  exact ⟨h.1, h.2 rfl⟩

/-- C8: for every `compress_image` call with a width that is neither `"0"`
nor empty, the assembled argument list carries a scale filter: height `"0"`
or empty gives `scale=width:-1` (aspect preserved), and a given height
gives `scale=width:height`. -/
theorem C8_scale_filter_form (env : ImageEnv)
    (input output width height : String)
    (hw0 : width ≠ "0") (hwe : width ≠ "") :
    (height = "0" ∨ height = "" →
      imageArgs input output width height =
        ["-i", input, "-vf", "scale=" ++ width ++ ":-1", "-y", output]) ∧
    (height ≠ "0" → height ≠ "" →
      imageArgs input output width height =
        ["-i", input, "-vf", "scale=" ++ width ++ ":" ++ height,
          "-y", output]) ∧
    (env.inputExists = true →
      (compress_image env input output width height).args =
        imageArgs input output width height) := by
  refine ⟨fun hh => ?_, fun hh0 hhe => ?_, fun hin => ?_⟩
  · have hcat : (":" ++ "-1" : String) = ":-1" := rfl
    rcases hh with h | h <;>
      simp [imageArgs, hw0, hwe, h, String.append_assoc, hcat]
  · simp [imageArgs, hw0, hwe, hh0, hhe]
  · cases hsp : env.spawn <;> simp [compress_image, hin, hsp]

/-- Witness for C8 at concrete widths and heights: width 640 with height
`"0"` gives `scale=640:-1`; width 640 with height 360 gives
`scale=640:360`. -/
theorem C8_scale_filter_witness :
    imageArgs "in.png" "out.png" "640" "0" =
      ["-i", "in.png", "-vf", "scale=640:-1", "-y", "out.png"] ∧
    imageArgs "in.png" "out.png" "640" "360" =
      ["-i", "in.png", "-vf", "scale=640:360", "-y", "out.png"] ∧
    (compress_image ⟨true, Except.ok (), []⟩
        "in.png" "out.png" "640" "0").args =
      imageArgs "in.png" "out.png" "640" "0" := by
  have h₁ := C8_scale_filter_form ⟨true, Except.ok (), []⟩
    "in.png" "out.png" "640" "0" (by decide) (by decide)
  have h₂ := C8_scale_filter_form ⟨true, Except.ok (), []⟩
    "in.png" "out.png" "640" "360" (by decide) (by decide)
  exact ⟨h₁.1 (Or.inl rfl), h₂.2.1 (by decide) (by decide), h₁.2.2 rfl⟩

/-- C1 counterexample: a `compress_image` call whose child process
terminates with the nonzero exit code 1 still returns success, because the
image event loop never inspects the termination event — contradicting the
claim that a nonzero exit code yields a failure result for
`compress_image`.  Also, on the gif path of `compress_video` the error for
exit code 1 after a stderr line "boom" is the literal
"GIF conversion failed with exit code: 1", which does not contain the
observed stderr line. -/
theorem C1_image_ignores_exit_code :
    (compress_image
        ⟨true, Except.ok (),
          [CommandEvent.stderr "conversion failed",
            CommandEvent.terminated (some 1)]⟩
        "in.png" "out.png" "0" "0").result = Except.ok () ∧
    (compress_video
        ⟨true, fun _ => ProbeOutcome.failed, Except.ok (),
          [CommandEvent.stderr "boom",
            CommandEvent.terminated (some 1)]⟩
        "in.gif" "out.gif" false).result =
      Except.error "GIF conversion failed with exit code: 1" :=
  ⟨rfl, rfl⟩

/-- C1 (amended): for `compress_video`, when every delivered event is
non-fatal (exit code zero or absent) the call returns Ok; on the non-gif
path a nonzero exit code yields an Err built from the code and the last
observed stderr line; on the gif path the Err carries the code only; and
`compress_image` ignores the exit status entirely, returning Ok whenever
the child was spawned. -/
theorem C1_exit_code_classification :
    (∀ (env : VideoEnv) (input output : String) (autoGpu : Bool),
      env.inputExists = true → env.spawn = Except.ok () →
      (∀ e ∈ env.events, fatal e = false) →
      (compress_video env input output autoGpu).result = Except.ok ()) ∧
    (∀ (env : VideoEnv) (input output : String) (autoGpu : Bool)
        (c : Int) (es₁ es₂ : List CommandEvent),
      env.inputExists = true → env.spawn = Except.ok () →
      videoExt output ≠ "gif" →
      env.events = es₁ ++ CommandEvent.terminated (some c) :: es₂ →
      c ≠ 0 → (∀ e ∈ es₁, fatal e = false) →
      (compress_video env input output autoGpu).result =
        Except.error ("FFmpeg Stopped/Crashed (Code " ++ toString c ++
          "): " ++ lastStderr es₁ "Unknown FFmpeg Error")) ∧
    (∀ (env : VideoEnv) (input output : String) (autoGpu : Bool)
        (c : Int) (es₁ es₂ : List CommandEvent),
      env.inputExists = true → env.spawn = Except.ok () →
      videoExt output = "gif" →
      env.events = es₁ ++ CommandEvent.terminated (some c) :: es₂ →
      c ≠ 0 → (∀ e ∈ es₁, fatal e = false) →
      (compress_video env input output autoGpu).result =
        Except.error ("GIF conversion failed with exit code: " ++
          toString c)) ∧
    (∀ (env : ImageEnv) (input output width height : String),
      env.inputExists = true → env.spawn = Except.ok () →
      (compress_image env input output width height).result =
        Except.ok ()) := by
  refine ⟨?_, ?_, ?_, ?_⟩
  · intro env input output autoGpu hin hspawn hev
    exact compress_video_result_ok env input output autoGpu hin hspawn hev
  · intro env input output autoGpu c es₁ es₂ hin hspawn hgif hev hc hpre
    obtain ⟨sel, hroute⟩ :=
      route_normal_of_ne_gif (videoExt output) autoGpu
        (fun x => is_encoder_supported (env.probe x)) hgif
    rw [compress_video_result_normal env input output autoGpu sel hin
      hroute hspawn, hev]
    exact videoLoop_err es₁ es₂ c _ hc hpre
  · intro env input output autoGpu c es₁ es₂ hin hspawn hgif hev hc hpre
    have hroute : route (videoExt output) autoGpu
        (fun x => is_encoder_supported (env.probe x)) = Route.gif := by
      rw [hgif]; exact route_of_gif autoGpu _
    rw [compress_video_result_gif env input output autoGpu hin
      hroute hspawn, hev]
    exact gifLoop_err es₁ es₂ c hc hpre
  · intro env input output width height hin hspawn
    simp [compress_image, hin, hspawn]

/-- Witness for C1 (amended): a nonzero exit after a stderr line yields the
error string that embeds the code and that line. -/
theorem C1_exit_code_witness :
    (compress_video
        ⟨true, fun _ => ProbeOutcome.failed, Except.ok (),
          [CommandEvent.stderr "frame drop",
            CommandEvent.terminated (some 1)]⟩
        "in.mp4" "out.mp4" false).result =
      Except.error "FFmpeg Stopped/Crashed (Code 1): frame drop" := by
  have h := C1_exit_code_classification.2.1
    ⟨true, fun _ => ProbeOutcome.failed, Except.ok (),
      [CommandEvent.stderr "frame drop",
        CommandEvent.terminated (some 1)]⟩
    "in.mp4" "out.mp4" false 1 [CommandEvent.stderr "frame drop"] []
    rfl rfl (by decide) rfl (by decide) (by decide)
  rw [h]
  rfl

/-- C9: every probe failure — a spawn error or a nonzero exit of the
synthetic encode — collapses to the boolean false ("encoder unavailable"),
and `compress_video` depends on the probe outcomes only through that
boolean, so no probe failure is ever surfaced as an error of the enclosing
call. -/
theorem C9_probe_failures_swallowed :
    (∀ c : Int, c ≠ 0 →
      is_encoder_supported (ProbeOutcome.finished c) = false) ∧
    is_encoder_supported ProbeOutcome.failed = false ∧
    (∀ (env₁ env₂ : VideoEnv) (input output : String) (autoGpu : Bool),
      env₁.inputExists = env₂.inputExists → env₁.spawn = env₂.spawn →
      env₁.events = env₂.events →
      (∀ c, is_encoder_supported (env₁.probe c) =
        is_encoder_supported (env₂.probe c)) →
      compress_video env₁ input output autoGpu =
        compress_video env₂ input output autoGpu) := by
  refine ⟨fun c hc => by simp [is_encoder_supported, hc], rfl, ?_⟩
  rintro ⟨i₁, p₁, s₁, ev₁⟩ ⟨i₂, p₂, s₂, ev₂⟩ input output autoGpu hi hs he hp
  dsimp at hi hs he hp
  subst hi; subst hs; subst he
  have hfun : (fun c => is_encoder_supported (p₁ c)) =
      (fun c => is_encoder_supported (p₂ c)) := funext hp
  simp only [compress_video]
  rw [hfun]

/-- Witness for C9: a spawn failure and an exit-code-1 probe are both
reported as unavailable, and two runs whose probes fail in those two
different ways produce identical outcomes. -/
theorem C9_probe_failures_witness :
    is_encoder_supported (ProbeOutcome.finished 1) = false ∧
    compress_video
        ⟨true, fun _ => ProbeOutcome.failed, Except.ok (), []⟩
        "a.mp4" "b.mp4" true =
      compress_video
        ⟨true, fun _ => ProbeOutcome.finished 1, Except.ok (), []⟩
        "a.mp4" "b.mp4" true :=
  ⟨C9_probe_failures_swallowed.1 1 (by decide),
   C9_probe_failures_swallowed.2.2 _ _ "a.mp4" "b.mp4" true
     rfl rfl rfl (fun _ => rfl)⟩

/-- C10: a `compress_video` call (any path, the gif one included) whose
child terminates without an exit code — the termination event carries
`none`, e.g. after a signal kill — returns Ok, not an error, provided no
earlier event was a nonzero termination. -/
theorem C10_no_exit_code_yields_ok (env : VideoEnv)
    (input output : String) (autoGpu : Bool) (es : List CommandEvent)
    (hin : env.inputExists = true) (hspawn : env.spawn = Except.ok ())
    (hev : env.events = es ++ [CommandEvent.terminated none])
    (hpre : ∀ e ∈ es, fatal e = false) :
    (compress_video env input output autoGpu).result = Except.ok () := by
  refine compress_video_result_ok env input output autoGpu hin hspawn ?_
  rw [hev]
  intro e hmem
  rcases List.mem_append.mp hmem with h | h
  · exact hpre e h
  · rcases List.mem_singleton.mp h with rfl
    rfl

/-- Witness for C10: a gif-path run killed without an exit code returns
Ok. -/
theorem C10_no_exit_code_witness :
    (compress_video
        ⟨true, fun _ => ProbeOutcome.failed, Except.ok (),
          [CommandEvent.stderr "progress",
            CommandEvent.terminated none]⟩
        "in.mov" "out.gif" true).result = Except.ok () :=
  C10_no_exit_code_yields_ok _ "in.mov" "out.gif" true
    [CommandEvent.stderr "progress"] rfl rfl rfl (by decide)

theorem compress_video_spawned_true (env : VideoEnv) (input output : String)
    (autoGpu : Bool)
    (hin : env.inputExists = true) (hspawn : env.spawn = Except.ok ()) :
    (compress_video env input output autoGpu).spawned = true := by
  rcases hr : route (videoExt output) autoGpu
      (fun c => is_encoder_supported (env.probe c)) with _ | sel <;>
    simp [compress_video, hin, hr, hspawn]

/-- C2: for every `compress_video` call with `auto_gpu` true and a
GPU-friendly output extension, the selected encoder is the first
probe-supported candidate in the fixed order h264_nvenc,
h264_videotoolbox, h264_amf, h264_qsv; the probes that ran are exactly the
failed candidates before it followed by the successful one — sequential,
first-match-wins, each probed once, a failure falling through to the next
candidate. -/
theorem C2_gpu_first_match (env : VideoEnv) (input output : String)
    (hin : env.inputExists = true) (hext : videoExt output ∈ groupA)
    (e : String)
    (hfind : gpuCandidates.find?
      (fun c => is_encoder_supported (env.probe c)) = some e) :
    ∃ sel : Selection,
      route (videoExt output) true
          (fun c => is_encoder_supported (env.probe c)) = Route.normal sel ∧
      sel.encoder = e ∧
      (compress_video env input output true).args =
        buildArgs input output sel ∧
      (compress_video env input output true).probed =
        gpuCandidates.takeWhile
          (fun c => !is_encoder_supported (env.probe c)) ++ [e] := by
  have hprobed := compress_video_probed_eq env input output true hin
  cases h1 : is_encoder_supported (env.probe "h264_nvenc") with
  | true =>
    have he : e = "h264_nvenc" := by
      simp [gpuCandidates, List.find?, h1] at hfind
      exact hfind.symm
    subst he
    have hroute : route (videoExt output) true
        (fun c => is_encoder_supported (env.probe c)) =
        Route.normal ⟨"h264_nvenc", "aac", "p4", [], ["-hwaccel", "cuda"]⟩ := by
      simp [route, hext, h1]
    refine ⟨_, hroute, rfl,
      compress_video_args_of_route env input output true _ hin hroute, ?_⟩
    rw [hprobed]
    simp [probesRun, hext, h1, gpuCandidates, List.takeWhile]
  | false =>
    cases h2 : is_encoder_supported (env.probe "h264_videotoolbox") with
    | true =>
      have he : e = "h264_videotoolbox" := by
        simp [gpuCandidates, List.find?, h1, h2] at hfind
        exact hfind.symm
      subst he
      have hroute : route (videoExt output) true
          (fun c => is_encoder_supported (env.probe c)) =
          Route.normal ⟨"h264_videotoolbox", "aac", "medium", ["-q:v", "55"],
            ["-hwaccel", "videotoolbox"]⟩ := by
        simp [route, hext, h1, h2]
      refine ⟨_, hroute, rfl,
        compress_video_args_of_route env input output true _ hin hroute, ?_⟩
      rw [hprobed]
      simp [probesRun, hext, h1, h2, gpuCandidates, List.takeWhile]
    | false =>
      cases h3 : is_encoder_supported (env.probe "h264_amf") with
      | true =>
        have he : e = "h264_amf" := by
          simp [gpuCandidates, List.find?, h1, h2, h3] at hfind
          exact hfind.symm
        subst he
        have hroute : route (videoExt output) true
            (fun c => is_encoder_supported (env.probe c)) =
            Route.normal ⟨"h264_amf", "aac", "medium",
              ["-usage", "transcoding"], ["-hwaccel", "auto"]⟩ := by
          simp [route, hext, h1, h2, h3]
        refine ⟨_, hroute, rfl,
          compress_video_args_of_route env input output true _ hin hroute, ?_⟩
        rw [hprobed]
        simp [probesRun, hext, h1, h2, h3, gpuCandidates, List.takeWhile]
      | false =>
        cases h4 : is_encoder_supported (env.probe "h264_qsv") with
        | true =>
          have he : e = "h264_qsv" := by
            simp [gpuCandidates, List.find?, h1, h2, h3, h4] at hfind
            exact hfind.symm
          subst he
          have hroute : route (videoExt output) true
              (fun c => is_encoder_supported (env.probe c)) =
              Route.normal ⟨"h264_qsv", "aac", "medium",
                ["-global_quality", "25"], ["-hwaccel", "auto"]⟩ := by
            simp [route, hext, h1, h2, h3, h4]
          refine ⟨_, hroute, rfl,
            compress_video_args_of_route env input output true _ hin hroute,
            ?_⟩
          rw [hprobed]
          simp [probesRun, hext, h1, h2, h3, h4, gpuCandidates, List.takeWhile]
        | false =>
          exfalso
          simp [gpuCandidates, List.find?, h1, h2, h3, h4] at hfind

/-- Witness for C2: with the nvenc and videotoolbox probes failing and the
amf probe succeeding, h264_amf is selected and exactly three probes ran. -/
theorem C2_gpu_first_match_witness :
    ∃ sel : Selection,
      route (videoExt "out.mp4") true
          (fun c => is_encoder_supported
            (if c = "h264_amf" then ProbeOutcome.finished 0
              else ProbeOutcome.failed)) = Route.normal sel ∧
      sel.encoder = "h264_amf" ∧
      (compress_video
          ⟨true,
            fun c => if c = "h264_amf" then ProbeOutcome.finished 0
              else ProbeOutcome.failed,
            Except.ok (), []⟩ "in.mp4" "out.mp4" true).args =
        buildArgs "in.mp4" "out.mp4" sel ∧
      (compress_video
          ⟨true,
            fun c => if c = "h264_amf" then ProbeOutcome.finished 0
              else ProbeOutcome.failed,
            Except.ok (), []⟩ "in.mp4" "out.mp4" true).probed =
        gpuCandidates.takeWhile
          (fun c => !is_encoder_supported
            (if c = "h264_amf" then ProbeOutcome.finished 0
              else ProbeOutcome.failed)) ++ ["h264_amf"] :=
  C2_gpu_first_match
    ⟨true,
      fun c => if c = "h264_amf" then ProbeOutcome.finished 0
        else ProbeOutcome.failed,
      Except.ok (), []⟩
    "in.mp4" "out.mp4" rfl (by decide) "h264_amf" (by decide)

/-- C3: with `auto_gpu` true, a GPU-friendly extension, and all four
hardware probes reporting unavailable, the builder selects the software
path: encoder libx264, audio codec aac, preset medium. -/
theorem C3_all_probes_fail_software (env : VideoEnv) (input output : String)
    (hin : env.inputExists = true) (hext : videoExt output ∈ groupA)
    (hsup : ∀ c ∈ gpuCandidates, is_encoder_supported (env.probe c) = false) :
    route (videoExt output) true
        (fun c => is_encoder_supported (env.probe c)) =
      Route.normal softwareSel ∧
    softwareSel.encoder = "libx264" ∧ softwareSel.audio = "aac" ∧
    softwareSel.preset = "medium" ∧
    (compress_video env input output true).args =
      ["-i", input, "-c:v", "libx264", "-preset", "medium",
        "-c:a", "aac", "-y", output] := by
  have h1 := hsup "h264_nvenc" (by simp [gpuCandidates])
  have h2 := hsup "h264_videotoolbox" (by simp [gpuCandidates])
  have h3 := hsup "h264_amf" (by simp [gpuCandidates])
  have h4 := hsup "h264_qsv" (by simp [gpuCandidates])
  have hroute : route (videoExt output) true
      (fun c => is_encoder_supported (env.probe c)) =
      Route.normal softwareSel := by
    simp [route, hext, h1, h2, h3, h4]
  refine ⟨hroute, rfl, rfl, rfl, ?_⟩
  rw [compress_video_args_of_route env input output true softwareSel hin
    hroute]
  rfl

/-- Witness for C3 with every probe failing on a concrete mkv call. -/
theorem C3_all_probes_fail_witness :
    route (videoExt "out.mkv") true
        (fun c => is_encoder_supported
          ((fun _ => ProbeOutcome.failed) c)) = Route.normal softwareSel ∧
    softwareSel.encoder = "libx264" ∧ softwareSel.audio = "aac" ∧
    softwareSel.preset = "medium" ∧
    (compress_video
        ⟨true, fun _ => ProbeOutcome.failed, Except.ok (), []⟩
        "in.mkv" "out.mkv" true).args =
      ["-i", "in.mkv", "-c:v", "libx264", "-preset", "medium",
        "-c:a", "aac", "-y", "out.mkv"] :=
  C3_all_probes_fail_software
    ⟨true, fun _ => ProbeOutcome.failed, Except.ok (), []⟩
    "in.mkv" "out.mkv" rfl (by decide) (fun c _ => rfl)

/-- C5: with no hardware requested (`auto_gpu` false) the argument builder
selects the documented default encoder/audio pair for the extension:
libx264/aac for the mp4 group, libvpx-vp9/libopus for webm, and
libtheora/libvorbis for ogv and ogg. -/
theorem C5_default_pairs (env : VideoEnv) (input output : String) :
    (videoExt output ∈ groupA →
      route (videoExt output) false
          (fun c => is_encoder_supported (env.probe c)) =
        Route.normal softwareSel ∧
      (env.inputExists = true →
        (compress_video env input output false).args =
          ["-i", input, "-c:v", "libx264", "-preset", "medium",
            "-c:a", "aac", "-y", output])) ∧
    (videoExt output = "webm" →
      route (videoExt output) false
          (fun c => is_encoder_supported (env.probe c)) =
        Route.normal ⟨"libvpx-vp9", "libopus", "medium",
          ["-b:v", "0", "-crf", "30"], []⟩ ∧
      (env.inputExists = true →
        (compress_video env input output false).args =
          ["-i", input, "-c:v", "libvpx-vp9", "-b:v", "0", "-crf", "30",
            "-c:a", "libopus", "-y", output])) ∧
    (videoExt output = "ogv" ∨ videoExt output = "ogg" →
      route (videoExt output) false
          (fun c => is_encoder_supported (env.probe c)) =
        Route.normal ⟨"libtheora", "libvorbis", "medium",
          ["-q:v", "6"], []⟩ ∧
      (env.inputExists = true →
        (compress_video env input output false).args =
          ["-i", input, "-c:v", "libtheora", "-q:v", "6",
            "-c:a", "libvorbis", "-y", output])) := by
  refine ⟨fun hext => ?_, fun hext => ?_, fun hext => ?_⟩
  · have hroute : route (videoExt output) false
        (fun c => is_encoder_supported (env.probe c)) =
        Route.normal softwareSel := by
      simp [route, hext]
    refine ⟨hroute, fun hin => ?_⟩
    rw [compress_video_args_of_route env input output false softwareSel hin
      hroute]
    rfl
  · have hroute : route (videoExt output) false
        (fun c => is_encoder_supported (env.probe c)) =
        Route.normal ⟨"libvpx-vp9", "libopus", "medium",
          ["-b:v", "0", "-crf", "30"], []⟩ := by
      rw [hext]; simp [route, groupA]
    refine ⟨hroute, fun hin => ?_⟩
    rw [compress_video_args_of_route env input output false _ hin hroute]
    rfl
  · have hroute : route (videoExt output) false
        (fun c => is_encoder_supported (env.probe c)) =
        Route.normal ⟨"libtheora", "libvorbis", "medium",
          ["-q:v", "6"], []⟩ := by
      rcases hext with h | h <;> rw [h] <;> simp [route, groupA]
    refine ⟨hroute, fun hin => ?_⟩
    rw [compress_video_args_of_route env input output false _ hin hroute]
    rfl

/-- Witness for C5 on concrete mp4, webm and ogv calls. -/
theorem C5_default_pairs_witness :
    (compress_video
        ⟨true, fun _ => ProbeOutcome.failed, Except.ok (), []⟩
        "a" "out.mp4" false).args =
      ["-i", "a", "-c:v", "libx264", "-preset", "medium",
        "-c:a", "aac", "-y", "out.mp4"] ∧
    (compress_video
        ⟨true, fun _ => ProbeOutcome.failed, Except.ok (), []⟩
        "a" "out.webm" false).args =
      ["-i", "a", "-c:v", "libvpx-vp9", "-b:v", "0", "-crf", "30",
        "-c:a", "libopus", "-y", "out.webm"] ∧
    (compress_video
        ⟨true, fun _ => ProbeOutcome.failed, Except.ok (), []⟩
        "a" "out.ogv" false).args =
      ["-i", "a", "-c:v", "libtheora", "-q:v", "6",
        "-c:a", "libvorbis", "-y", "out.ogv"] :=
  ⟨((C5_default_pairs
      ⟨true, fun _ => ProbeOutcome.failed, Except.ok (), []⟩
      "a" "out.mp4").1 (by decide)).2 rfl,
   ((C5_default_pairs
      ⟨true, fun _ => ProbeOutcome.failed, Except.ok (), []⟩
      "a" "out.webm").2.1 (by decide)).2 rfl,
   ((C5_default_pairs
      ⟨true, fun _ => ProbeOutcome.failed, Except.ok (), []⟩
      "a" "out.ogv").2.2 (Or.inl (by decide))).2 rfl⟩

/-- C6: an output extension matching none of the listed groups does not
make the call fail: routing falls through to the default software settings
(encoder libx264, audio aac, preset medium) and the child process is still
spawned. -/
theorem C6_unknown_ext_defaults (env : VideoEnv) (input output : String)
    (autoGpu : Bool)
    (h1 : videoExt output ∉ groupA) (h2 : videoExt output ≠ "webm")
    (h3 : videoExt output ≠ "ogv") (h4 : videoExt output ≠ "ogg")
    (h5 : videoExt output ≠ "gif") :
    route (videoExt output) autoGpu
        (fun c => is_encoder_supported (env.probe c)) =
      Route.normal softwareSel ∧
    (env.inputExists = true →
      (compress_video env input output autoGpu).args =
        ["-i", input, "-c:v", "libx264", "-preset", "medium",
          "-c:a", "aac", "-y", output] ∧
      (env.spawn = Except.ok () →
        (compress_video env input output autoGpu).spawned = true)) := by
  have hroute : route (videoExt output) autoGpu
      (fun c => is_encoder_supported (env.probe c)) =
      Route.normal softwareSel := by
    simp [route, h1, h2, h3, h4, h5]
  refine ⟨hroute, fun hin => ⟨?_, fun hspawn => ?_⟩⟩
  · rw [compress_video_args_of_route env input output autoGpu softwareSel
      hin hroute]
    rfl
  · exact compress_video_spawned_true env input output autoGpu hin hspawn

/-- Witness for C6 on an `.xyz` output. -/
theorem C6_unknown_ext_witness :
    route (videoExt "out.xyz") true
        (fun c => is_encoder_supported
          ((fun _ => ProbeOutcome.failed) c)) = Route.normal softwareSel ∧
    (compress_video
        ⟨true, fun _ => ProbeOutcome.failed, Except.ok (), []⟩
        "in.xyz" "out.xyz" true).args =
      ["-i", "in.xyz", "-c:v", "libx264", "-preset", "medium",
        "-c:a", "aac", "-y", "out.xyz"] ∧
    (compress_video
        ⟨true, fun _ => ProbeOutcome.failed, Except.ok (), []⟩
        "in.xyz" "out.xyz" true).spawned = true := by
  have h := C6_unknown_ext_defaults
    ⟨true, fun _ => ProbeOutcome.failed, Except.ok (), []⟩
    "in.xyz" "out.xyz" true (by decide) (by decide) (by decide)
    (by decide) (by decide)
  exact ⟨h.1, (h.2 rfl).1, (h.2 rfl).2 rfl⟩

end CompressIO
